import Mathlib

set_option autoImplicit false

namespace LeafyBank

/-!
Shallow embedding of the leafy-bank-backend-openfinance core: the bearer-token
validator (`services/auth.py`), the identity checks of the secured routers
(`routers/open_finance/secure.py`, `routers/leafy_bank/transactions/secure.py`),
the balance/debt aggregations (`services/account_aggregations.py`,
`services/aggregations/product_aggregations.py`) and account closing
(`services/internal/accounts_service.py`).

Collections are modelled as lists of documents; `find_one` returns the first
match and `update_one` rewrites the first match, as in MongoDB.  BSON
`ObjectId` is modelled by its 12-byte value as a `Nat`, with `is_valid` /
parsing / lowercase-hex printing following `bson.ObjectId`.
-/

/-- Hexadecimal digit test, both cases, as accepted by `bson.ObjectId.is_valid`. -/
def isHexChar (c : Char) : Bool :=
  (('0' ≤ c) && (c ≤ '9')) || (('a' ≤ c) && (c ≤ 'f')) || (('A' ≤ c) && (c ≤ 'F'))

/-- Numeric value of a hexadecimal digit (caller guarantees `isHexChar`). -/
def hexVal (c : Char) : Nat :=
  if ('0' ≤ c) && (c ≤ '9') then c.toNat - '0'.toNat
  else if ('a' ≤ c) && (c ≤ 'f') then c.toNat - 'a'.toNat + 10
  else c.toNat - 'A'.toNat + 10

/-- Model of `bson.ObjectId`: the 12-byte identifier, as its numeric value. -/
structure ObjectId where
  val : Nat
deriving DecidableEq, Repr

/-- Model of `ObjectId.is_valid(s)`: a 24-character hex string (either case). -/
def ObjectId.is_valid (s : String) : Bool :=
  (s.length == 24) && s.toList.all isHexChar

/-- Model of the `ObjectId(s)` constructor on a valid 24-hex string:
hex parsing, case-insensitive. -/
def ObjectId.ofHex (s : String) : ObjectId :=
  ⟨s.toList.foldl (fun a c => a * 16 + hexVal c) 0⟩

/-- Model of the `ObjectId(s)` constructor including its failure mode:
`none` models the `InvalidId` exception raised on a malformed string. -/
def ObjectId.parse (s : String) : Option ObjectId :=
  if ObjectId.is_valid s then some (ObjectId.ofHex s) else none

/-- Lowercase hex digit for a value below 16. -/
def hexChar (n : Nat) : Char :=
  if n < 10 then Char.ofNat ('0'.toNat + n) else Char.ofNat ('a'.toNat + (n - 10))

/-- Fixed-width lowercase hex rendering, most significant digit first. -/
def toHexDigits : Nat → Nat → List Char
  | 0, _ => []
  | k + 1, n => toHexDigits k (n / 16) ++ [hexChar (n % 16)]

/-- Model of `str(ObjectId)`: the 24 lowercase hex characters. -/
def ObjectId.str (o : ObjectId) : String :=
  ⟨toHexDigits 24 o.val⟩

/-- Rewrite the first element satisfying `p` (MongoDB `update_one` semantics). -/
def updateFirst {α : Type} (p : α → Bool) (f : α → α) : List α → List α
  | [] => []
  | a :: rest => if p a then f a :: rest else a :: updateFirst p f rest

/-- Document of the `tokens` collection: it is at once the credential record
and the owning user record returned by the validator (`_id`, `UserName`,
`BearerToken`, `TokenDates.LastUseDate`). -/
structure TokenDoc where
  id : ObjectId
  UserName : String
  BearerToken : String
  LastUseDate : Nat
deriving DecidableEq, Repr

/-- Model of `tokens_collection.find_one({"BearerToken": t})`: first match. -/
def find_one_token (coll : List TokenDoc) (t : String) : Option TokenDoc :=
  coll.find? (fun d => d.BearerToken == t)

/-- Model of the `update_one({"BearerToken": t}, {"$set": {"TokenDates.LastUseDate": now}})`
call in `Auth.bearer_token_validation`. -/
def stamp_last_use (coll : List TokenDoc) (t : String) (now : Nat) : List TokenDoc :=
  updateFirst (fun d => d.BearerToken == t) (fun d => { d with LastUseDate := now }) coll

/-- Failure modes of `Auth.bearer_token_validation`: the two `HTTPException`s it
raises itself, and a store exception propagating out of the (uncaught)
`update_one` call. -/
inductive ValidationFailure where
  | missingCredential
  | invalidCredential
  | storeError
deriving DecidableEq, Repr

/-- HTTP status carried by each failure (the router maps an unhandled store
exception to 500). -/
def ValidationFailure.status : ValidationFailure → Nat
  | .missingCredential => 400
  | .invalidCredential => 403
  | .storeError => 500

/-- Outcome of the store `update_one` call: it applied, it completed but
modified nothing (its returned ack is never inspected by the caller), or it
raised. -/
inductive WriteOutcome where
  | applied
  | noop
  | raised
deriving DecidableEq, Repr

/-- Model of `Auth.bearer_token_validation`.  Returns the matched document
(the owning user record) together with the tokens collection after the
last-use stamp; `writeOutcome` is the behaviour of the store on the
`update_one` call, whose result the Python code never inspects and around
which it has no `try`. -/
def bearer_token_validation (coll : List TokenDoc) (bearer_token : String)
    (now : Nat) (writeOutcome : WriteOutcome) :
    Except ValidationFailure (TokenDoc × List TokenDoc) :=
  if bearer_token.isEmpty then
    .error .missingCredential
  else
    match find_one_token coll bearer_token with
    | none => .error .invalidCredential
    | some user =>
      match writeOutcome with
      | .raised => .error .storeError
      | .applied => .ok (user, stamp_last_use coll bearer_token now)
      | .noop => .ok (user, coll)

/-! Aggregations (`services/account_aggregations.py`,
`services/aggregations/product_aggregations.py`).  A `$group`/`$sum` stage over
the matched documents yields no output document when nothing matched, and the
Python code reads `result_aggregate[0][...] if result_aggregate else 0`. -/

/-- Model of the `$group`/`$sum` stage: no output document on empty input,
otherwise the single total. -/
def groupTotal (xs : List Int) : List Int :=
  if xs.isEmpty then [] else [xs.sum]

/-- Model of `result_aggregate[0][...] if result_aggregate else 0`. -/
def aggHead (res : List Int) : Int :=
  res.headD 0

/-- Account document fields used by the aggregations (`AccountUser.UserId`,
`AccountBalance`); covers both the internal and the external accounts
collections. -/
structure AccountDoc where
  id : ObjectId
  AccountUserId : ObjectId
  AccountBalance : Int
deriving DecidableEq, Repr

/-- Python truthiness of the optional list: `None` and `[]` are falsy. -/
def truthy (l : Option (List String)) : Bool :=
  match l with
  | none => false
  | some xs => !xs.isEmpty

/-- Model of `AccountAggregations._aggregate_internal_account_balances`:
match on owner, group-sum `AccountBalance`, default 0. -/
def aggregate_internal_account_balances (accounts : List AccountDoc)
    (user_id : ObjectId) : Int :=
  aggHead (groupTotal
    ((accounts.filter (fun a => a.AccountUserId == user_id)).map
      (fun a => a.AccountBalance)))

/-- Model of `AccountAggregations._aggregate_external_account_balances`:
the match stage always filters on the owner and, when the allow-list is
truthy, additionally on `_id ∈ parsed allow-list`; `none` models the
`InvalidId` exception from `ObjectId(account_id)` on a malformed entry. -/
def aggregate_external_account_balances (ext : List AccountDoc)
    (user_id : ObjectId) (connected : Option (List String)) : Option Int :=
  if truthy connected then do
    let ids ← (connected.getD []).mapM ObjectId.parse
    pure (aggHead (groupTotal
      ((ext.filter (fun a => a.AccountUserId == user_id && ids.contains a.id)).map
        (fun a => a.AccountBalance))))
  else
    pure (aggHead (groupTotal
      ((ext.filter (fun a => a.AccountUserId == user_id)).map
        (fun a => a.AccountBalance))))

/-- Model of `AccountAggregations.get_user_account_balances`: parse the user
id, always sum internal balances, add the external sum only when the
allow-list is truthy. -/
def get_user_account_balances (accounts ext : List AccountDoc) (user_id : String)
    (connected : Option (List String)) : Option Int := do
  let uid ← ObjectId.parse user_id
  let internal := aggregate_internal_account_balances accounts uid
  let external ←
    if truthy connected then aggregate_external_account_balances ext uid connected
    else pure 0
  pure (internal + external)

/-- External product document fields used by the debt aggregation
(`ProductCustomer.UserId`, `ProductType`, `ProductAmount`). -/
structure ProductDoc where
  id : ObjectId
  ProductUserId : ObjectId
  ProductType : String
  ProductAmount : Int
deriving DecidableEq, Repr

/-- Model of `ProductAggregations._aggregate_external_products_debt`: 0 when
the allow-list is falsy, otherwise the group-sum of `ProductAmount` over
documents whose id is in the parsed allow-list, owned by the user, of type
Loan or Mortgage. -/
def aggregate_external_products_debt (prods : List ProductDoc)
    (user_id : ObjectId) (connected : Option (List String)) : Option Int :=
  if !truthy connected then pure 0
  else do
    let ids ← (connected.getD []).mapM ObjectId.parse
    pure (aggHead (groupTotal
      ((prods.filter (fun p =>
          ids.contains p.id && p.ProductUserId == user_id &&
          (p.ProductType == "Loan" || p.ProductType == "Mortgage"))).map
        (fun p => p.ProductAmount))))

/-- Model of `ProductAggregations.get_user_total_debt`: parse the user id,
then delegate to the external-products debt aggregation. -/
def get_user_total_debt (prods : List ProductDoc) (user_id : String)
    (connected : Option (List String)) : Option Int := do
  let uid ← ObjectId.parse user_id
  aggregate_external_products_debt prods uid connected

/-! Identity checks of the secured routers.  Each is the guard the endpoint
runs after `bearer_token_validation`; `Except.error n` models
`raise HTTPException(status_code=n, ...)`. -/

/-- Model of the guard in `fetch_external_accounts_for_user_and_institution`
(`routers/open_finance/secure.py`): reject unless the UserName or the string
form of the id equals the presented `user_identifier`. -/
def fetch_external_accounts_identity_check (user_auth : TokenDoc)
    (user_identifier : String) : Except Nat Unit :=
  if user_auth.UserName != user_identifier && ObjectId.str user_auth.id != user_identifier then
    .error 403
  else
    .ok ()

/-- Model of the guard in `fetch_recent_transactions_for_user`
(`routers/leafy_bank/transactions/secure.py`): same OR-shaped test on the
single `user_identifier` field. -/
def fetch_recent_transactions_identity_check (user_auth : TokenDoc)
    (user_identifier : String) : Except Nat Unit :=
  if user_auth.UserName != user_identifier && ObjectId.str user_auth.id != user_identifier then
    .error 403
  else
    .ok ()

/-- Model of the guard in `retrieve_external_account_for_user`
(`routers/open_finance/secure.py`): reject unless the UserName equals
`user_name` AND the string form of the id equals `user_id`. -/
def retrieve_external_account_identity_check (user_auth : TokenDoc)
    (user_name user_id : String) : Except Nat Unit :=
  if user_auth.UserName != user_name || ObjectId.str user_auth.id != user_id then
    .error 403
  else
    .ok ()

/-- Model of the guard in `calculate_total_balance_for_user`
(`routers/open_finance/secure.py` lines 235-241): the presented `user_id` is
parsed with `ObjectId(...)` and compared to the stored id in structured form;
a malformed string raises out of the endpoint (500). -/
def calculate_total_balance_identity_check (user_auth : TokenDoc)
    (user_id : String) : Except Nat Unit :=
  match ObjectId.parse user_id with
  | none => .error 500
  | some oid => if user_auth.id != oid then .error 403 else .ok ()

/-- Model of the conversion step `if ObjectId.is_valid(u): u = ObjectId(u)`
that every router runs on `user_identifier` before using it as a query key. -/
def normalize_user_identifier (s : String) : Sum ObjectId String :=
  if ObjectId.is_valid s then Sum.inl (ObjectId.ofHex s) else Sum.inr s

/-! Account closing (`services/internal/accounts_service.py`). -/

/-- Account document fields relevant to `close_account` (`AccountDate` is
flattened into `OpeningDate`/`ClosingDate`). -/
structure AccountRecord where
  id : ObjectId
  AccountNumber : String
  AccountStatus : String
  AccountType : String
  AccountBalance : Int
  OpeningDate : Nat
  ClosingDate : Option Nat
  AccountUserName : String
  AccountUserId : ObjectId
deriving DecidableEq, Repr

/-- The `$set` patch applied by `close_account`. -/
def close_patch (now : Nat) (a : AccountRecord) : AccountRecord :=
  { a with AccountStatus := "Closed", ClosingDate := some now }

/-- Model of `AccountsService.close_account`: parse the id (`none` models the
`InvalidId` exception), return `false` when no account matches or the balance
is non-zero, otherwise apply the `$set` patch to the matching document and
return whether `modified_count > 0`, i.e. whether the patch changed it. -/
def close_account (coll : List AccountRecord) (account_id : String) (now : Nat) :
    Option (Bool × List AccountRecord) := do
  let oid ← ObjectId.parse account_id
  match coll.find? (fun a => a.id == oid) with
  | none => pure (false, coll)
  | some account =>
    if account.AccountBalance != 0 then pure (false, coll)
    else
      let modified := !(account.AccountStatus == "Closed" && account.ClosingDate == some now)
      pure (modified, updateFirst (fun a => a.id == oid) (close_patch now) coll)

/-! Helper lemmas. -/

/-- The group/head combination computes the plain sum of the matched values. -/
theorem aggHead_groupTotal (xs : List Int) : aggHead (groupTotal xs) = xs.sum := by
  cases xs <;> simp [aggHead, groupTotal]

/-- When the rewrite preserves the filter, `find?` after `updateFirst` returns
the rewritten first match. -/
theorem find?_updateFirst {α : Type} (p : α → Bool) (f : α → α) (l : List α)
    (hpf : ∀ x, p (f x) = p x) :
    (updateFirst p f l).find? p = (l.find? p).map f := by
  induction l with
  | nil => simp [updateFirst]
  | cons a rest ih =>
    simp only [updateFirst]
    by_cases h : p a
    · rw [if_pos h, List.find?_cons_of_pos _ (by rw [hpf]; exact h),
        List.find?_cons_of_pos _ h]
      rfl
    · rw [if_neg h, List.find?_cons_of_neg _ h, List.find?_cons_of_neg _ h, ih]

/-- A filter returning a single document means `find?` returns that document. -/
theorem find?_of_filter_singleton {α : Type} (p : α → Bool) (l : List α) (u : α)
    (h : l.filter p = [u]) : l.find? p = some u := by
  induction l with
  | nil => simp at h
  | cons a rest ih =>
    by_cases hpa : p a
    · rw [List.filter_cons_of_pos hpa] at h
      injection h with h1 h2
      rw [List.find?_cons_of_pos _ hpa, h1]
    · rw [List.filter_cons_of_neg hpa] at h
      rw [List.find?_cons_of_neg _ hpa]
      exact ih h

/-! Claims about the bearer-token validator. -/

/-- C1: empty credential fails with the 400 missing-credential failure;
a non-empty credential with no matching tokens document fails with the 403
invalid-credential failure; a non-empty credential whose match in the tokens
collection is unique yields exactly that owning user record. -/
theorem bearer_token_validation_spec (coll : List TokenDoc) (tok : String) (now : Nat) :
    (tok = "" →
      bearer_token_validation coll tok now .applied = .error .missingCredential ∧
      ValidationFailure.missingCredential.status = 400) ∧
    (tok ≠ "" → find_one_token coll tok = none →
      bearer_token_validation coll tok now .applied = .error .invalidCredential ∧
      ValidationFailure.invalidCredential.status = 403) ∧
    (∀ u : TokenDoc, tok ≠ "" → coll.filter (fun d => d.BearerToken == tok) = [u] →
      bearer_token_validation coll tok now .applied =
        .ok (u, stamp_last_use coll tok now)) := by
  refine ⟨fun h => ?_, fun h hf => ?_, fun u h hu => ?_⟩
  · subst h
    exact ⟨rfl, rfl⟩
  · rw [bearer_token_validation, if_neg (by simpa [String.isEmpty_iff] using h), hf]
    exact ⟨rfl, rfl⟩
  · rw [bearer_token_validation, if_neg (by simpa [String.isEmpty_iff] using h),
      find_one_token, find?_of_filter_singleton _ _ _ hu]

/-- Witness for C1 at concrete inputs: all three branches. -/
theorem bearer_token_validation_spec_witness :
    bearer_token_validation [⟨⟨10⟩, "alice", "t1", 7⟩] "" 99 .applied =
      .error .missingCredential ∧
    bearer_token_validation [⟨⟨10⟩, "alice", "t1", 7⟩] "t2" 99 .applied =
      .error .invalidCredential ∧
    bearer_token_validation [⟨⟨10⟩, "alice", "t1", 7⟩] "t1" 99 .applied =
      .ok (⟨⟨10⟩, "alice", "t1", 7⟩, stamp_last_use [⟨⟨10⟩, "alice", "t1", 7⟩] "t1" 99) := by
  refine ⟨((bearer_token_validation_spec _ "" 99).1 rfl).1,
    ((bearer_token_validation_spec _ "t2" 99).2.1 (by decide) (by decide)).1,
    (bearer_token_validation_spec _ "t1" 99).2.2 ⟨⟨10⟩, "alice", "t1", 7⟩ (by decide) (by decide)⟩

/-- C8 counterexample: with a valid credential whose document is found, a
last-use write that raises makes the validator raise too (the `update_one`
call sits outside any `try`), so the validator does not return the owning
user record on that failure. -/
theorem write_failure_propagates_counterexample :
    find_one_token [⟨⟨10⟩, "alice", "t1", 7⟩] "t1" = some ⟨⟨10⟩, "alice", "t1", 7⟩ ∧
    bearer_token_validation [⟨⟨10⟩, "alice", "t1", 7⟩] "t1" 99 .raised =
      .error .storeError := by
  exact ⟨rfl, rfl⟩

/-- C8 amended: the validator never inspects the result of the timestamp
update, so a write that completes without raising — even one that modifies
nothing — still yields the owning user record; a write that raises propagates
as a store error (500), which is neither of the two validation failures. -/
theorem bearer_validation_ignores_write_result (coll : List TokenDoc) (tok : String)
    (now : Nat) (u : TokenDoc) (htok : tok ≠ "")
    (hfind : find_one_token coll tok = some u) :
    (∀ w : WriteOutcome, w ≠ .raised →
      ∃ coll2, bearer_token_validation coll tok now w = .ok (u, coll2)) ∧
    bearer_token_validation coll tok now .raised = .error .storeError ∧
    ValidationFailure.storeError.status = 500 ∧
    ValidationFailure.storeError ≠ .missingCredential ∧
    ValidationFailure.storeError ≠ .invalidCredential := by
  have hne : ¬ tok.isEmpty = true := by simpa [String.isEmpty_iff] using htok
  refine ⟨fun w hw => ?_, ?_, rfl, by simp, by simp⟩
  · cases w with
    | applied => exact ⟨_, by rw [bearer_token_validation, if_neg hne, hfind]⟩
    | noop => exact ⟨coll, by rw [bearer_token_validation, if_neg hne, hfind]⟩
    | raised => exact absurd rfl hw
  · rw [bearer_token_validation, if_neg hne, hfind]

/-- Witness for the amended C8 at a concrete input. -/
theorem bearer_validation_ignores_write_result_witness :
    ∃ coll2, bearer_token_validation [⟨⟨10⟩, "alice", "t1", 7⟩] "t1" 99 .noop =
      .ok (⟨⟨10⟩, "alice", "t1", 7⟩, coll2) :=
  (bearer_validation_ignores_write_result [⟨⟨10⟩, "alice", "t1", 7⟩] "t1" 99
    ⟨⟨10⟩, "alice", "t1", 7⟩ (by decide) (by decide)).1 .noop (by decide)

/-- C10: the record handed back by the validator is the document as read
before the last-use stamp — its `LastUseDate` is the stored previous value —
while the document left in the collection carries `LastUseDate = now`. -/
theorem returned_record_predates_stamp (coll : List TokenDoc) (tok : String)
    (now : Nat) (u : TokenDoc) (htok : tok ≠ "")
    (hfind : find_one_token coll tok = some u) :
    bearer_token_validation coll tok now .applied =
      .ok (u, stamp_last_use coll tok now) ∧
    find_one_token (stamp_last_use coll tok now) tok =
      some { u with LastUseDate := now } := by
  have hne : ¬ tok.isEmpty = true := by simpa [String.isEmpty_iff] using htok
  refine ⟨by rw [bearer_token_validation, if_neg hne, hfind], ?_⟩
  have h2 := find?_updateFirst (fun d : TokenDoc => d.BearerToken == tok)
    (fun d => { d with LastUseDate := now }) coll (fun x => rfl)
  rw [find_one_token, stamp_last_use, h2, ← find_one_token, hfind]
  rfl

/-- Witness for C10: the returned record still shows the old use time 7 while
the stored document shows 99. -/
theorem returned_record_predates_stamp_witness :
    bearer_token_validation [⟨⟨10⟩, "alice", "t1", 7⟩] "t1" 99 .applied =
      .ok (⟨⟨10⟩, "alice", "t1", 7⟩, stamp_last_use [⟨⟨10⟩, "alice", "t1", 7⟩] "t1" 99) ∧
    find_one_token (stamp_last_use [⟨⟨10⟩, "alice", "t1", 7⟩] "t1" 99) "t1" =
      some ⟨⟨10⟩, "alice", "t1", 99⟩ :=
  returned_record_predates_stamp [⟨⟨10⟩, "alice", "t1", 7⟩] "t1" 99
    ⟨⟨10⟩, "alice", "t1", 7⟩ (by decide) (by decide)

/-! Claims about the aggregations. -/

/-- C2: the total balance is the sum of the user's internal account balances
plus, only when the allow-list is a non-empty list, the sum over external
accounts whose id is in the (parsed) allow-list and whose owner is the user;
each summand defaults to 0 on no match, so an allow-list made only of
foreign-owned ids leaves the internal-only sum. -/
theorem get_user_account_balances_spec (accounts ext : List AccountDoc)
    (user_id : String) (connected : Option (List String)) (uid : ObjectId)
    (ids : List ObjectId)
    (hu : ObjectId.parse user_id = some uid)
    (hids : (connected.getD []).mapM ObjectId.parse = some ids) :
    (truthy connected = true ↔ ∃ l, connected = some l ∧ l ≠ []) ∧
    get_user_account_balances accounts ext user_id connected =
      some ((((accounts.filter (fun a => a.AccountUserId == uid)).map
          (fun a => a.AccountBalance)).sum) +
        (if truthy connected then
          (((ext.filter (fun a => a.AccountUserId == uid && ids.contains a.id)).map
            (fun a => a.AccountBalance)).sum)
        else 0)) ∧
    ((∀ a ∈ ext, ids.contains a.id → ¬ a.AccountUserId = uid) →
      get_user_account_balances accounts ext user_id connected =
        some (((accounts.filter (fun a => a.AccountUserId == uid)).map
          (fun a => a.AccountBalance)).sum)) := by
  have hiff : truthy connected = true ↔ ∃ l, connected = some l ∧ l ≠ [] := by
    cases connected with
    | none => simp [truthy]
    | some l => simp [truthy, List.isEmpty_iff]
  have hmain : get_user_account_balances accounts ext user_id connected =
      some ((((accounts.filter (fun a => a.AccountUserId == uid)).map
          (fun a => a.AccountBalance)).sum) +
        (if truthy connected then
          (((ext.filter (fun a => a.AccountUserId == uid && ids.contains a.id)).map
            (fun a => a.AccountBalance)).sum)
        else 0)) := by
    by_cases h : truthy connected = true
    · simp only [get_user_account_balances, aggregate_external_account_balances,
        aggregate_internal_account_balances, hu, h, if_true, hids,
        Option.bind_eq_bind, Option.some_bind, Option.pure_def, aggHead_groupTotal]
    · simp only [get_user_account_balances, aggregate_internal_account_balances,
        hu, h, if_false, Bool.not_eq_true, eq_self_iff_true,
        Option.bind_eq_bind, Option.some_bind, Option.pure_def, aggHead_groupTotal]
      simp [h]
  refine ⟨hiff, hmain, fun hforeign => ?_⟩
  have hzero : ext.filter (fun a => a.AccountUserId == uid && ids.contains a.id) = [] := by
    rw [List.filter_eq_nil_iff]
    intro a ha
    simp only [Bool.and_eq_true, beq_iff_eq, not_and]
    intro hown hcont
    exact absurd hown (hforeign a ha hcont)
  rw [hmain, hzero]
  cases h : truthy connected <;> simp

/-- Witness for C2: one internal account with balance 500; the allow-list
holds one external id owned by another user, which contributes 0. -/
theorem get_user_account_balances_spec_witness :
    get_user_account_balances [⟨⟨1⟩, ⟨5⟩, 500⟩] [⟨⟨2⟩, ⟨6⟩, 300⟩]
      "000000000000000000000005" (some ["000000000000000000000002"]) = some 500 := by
  have h := (get_user_account_balances_spec [⟨⟨1⟩, ⟨5⟩, 500⟩] [⟨⟨2⟩, ⟨6⟩, 300⟩]
    "000000000000000000000005" (some ["000000000000000000000002"]) ⟨5⟩ [⟨2⟩]
    (by decide) (by decide)).2.2 (by decide)
  rw [h]
  decide

/-- C3: the total debt is 0 whenever the allow-list is absent or empty, and
otherwise is the sum of `ProductAmount` over exactly the external products
whose id is in the parsed allow-list, owned by the user, of type Loan or
Mortgage. -/
theorem get_user_total_debt_spec (prods : List ProductDoc) (user_id : String)
    (connected : Option (List String)) (uid : ObjectId) (ids : List ObjectId)
    (hu : ObjectId.parse user_id = some uid)
    (hids : (connected.getD []).mapM ObjectId.parse = some ids) :
    get_user_total_debt prods user_id none = some 0 ∧
    get_user_total_debt prods user_id (some []) = some 0 ∧
    (truthy connected = true →
      get_user_total_debt prods user_id connected =
        some (((prods.filter (fun p =>
            ids.contains p.id && p.ProductUserId == uid &&
            (p.ProductType == "Loan" || p.ProductType == "Mortgage"))).map
          (fun p => p.ProductAmount)).sum)) := by
  refine ⟨?_, ?_, fun h => ?_⟩
  · simp [get_user_total_debt, aggregate_external_products_debt, hu, truthy]
  · simp [get_user_total_debt, aggregate_external_products_debt, hu, truthy]
  · simp only [get_user_total_debt, aggregate_external_products_debt, hu, h,
      Bool.not_true, if_false, Bool.false_eq_true, hids,
      Option.bind_eq_bind, Option.some_bind, Option.pure_def, aggHead_groupTotal]

/-- Witness for C3: a Loan owned by the user sums; with an empty allow-list
the debt is 0 even though the user owns that Loan. -/
theorem get_user_total_debt_spec_witness :
    get_user_total_debt [⟨⟨3⟩, ⟨5⟩, "Loan", 100⟩, ⟨⟨4⟩, ⟨5⟩, "Checking", 40⟩]
      "000000000000000000000005" (some []) = some 0 ∧
    get_user_total_debt [⟨⟨3⟩, ⟨5⟩, "Loan", 100⟩, ⟨⟨4⟩, ⟨5⟩, "Checking", 40⟩]
      "000000000000000000000005"
      (some ["000000000000000000000003", "000000000000000000000004"]) = some 100 := by
  constructor
  · exact (get_user_total_debt_spec
      [⟨⟨3⟩, ⟨5⟩, "Loan", 100⟩, ⟨⟨4⟩, ⟨5⟩, "Checking", 40⟩]
      "000000000000000000000005" none ⟨5⟩ [] (by decide) (by decide)).2.1
  · have h := (get_user_total_debt_spec
      [⟨⟨3⟩, ⟨5⟩, "Loan", 100⟩, ⟨⟨4⟩, ⟨5⟩, "Checking", 40⟩]
      "000000000000000000000005"
      (some ["000000000000000000000003", "000000000000000000000004"]) ⟨5⟩
      [⟨3⟩, ⟨4⟩] (by decide) (by decide)).2.2 (by decide)
    rw [h]
    decide

/-! Claims about the identity checks. -/

/-- C4: endpoints taking the single `user_identifier` field authorize iff the
UserName or the string form of the stored id equals it (OR policy), and
endpoints taking separate `user_name` and `user_id` fields authorize iff both
match (AND policy); every mismatch is the 403 failure. -/
theorem identity_policy_per_request_shape (u : TokenDoc) (ident name uid : String) :
    fetch_external_accounts_identity_check u ident =
      (if u.UserName = ident ∨ ObjectId.str u.id = ident then .ok () else .error 403) ∧
    fetch_recent_transactions_identity_check u ident =
      (if u.UserName = ident ∨ ObjectId.str u.id = ident then .ok () else .error 403) ∧
    retrieve_external_account_identity_check u name uid =
      (if u.UserName = name ∧ ObjectId.str u.id = uid then .ok () else .error 403) := by
  refine ⟨?_, ?_, ?_⟩
  · rw [fetch_external_accounts_identity_check]
    by_cases h1 : u.UserName = ident <;> by_cases h2 : ObjectId.str u.id = ident <;>
      simp [h1, h2]
  · rw [fetch_recent_transactions_identity_check]
    by_cases h1 : u.UserName = ident <;> by_cases h2 : ObjectId.str u.id = ident <;>
      simp [h1, h2]
  · rw [retrieve_external_account_identity_check]
    by_cases h1 : u.UserName = name <;> by_cases h2 : ObjectId.str u.id = uid <;>
      simp [h1, h2]

/-- C5 counterexample: the stored id 10 prints as
`"00000000000000000000000a"`; the uppercase spelling
`"00000000000000000000000A"` is a well-formed hex identifier parsing to the
very same id, yet the `user_identifier` guard compares the strings
byte-for-byte and rejects it with 403 while accepting the lowercase one. -/
theorem identity_guard_compares_strings_counterexample :
    ObjectId.is_valid "00000000000000000000000A" = true ∧
    ObjectId.parse "00000000000000000000000A" = some ⟨10⟩ ∧
    ObjectId.str ⟨10⟩ = "00000000000000000000000a" ∧
    fetch_external_accounts_identity_check ⟨⟨10⟩, "user_a", "tok_a", 0⟩
      "00000000000000000000000A" = .error 403 ∧
    fetch_external_accounts_identity_check ⟨⟨10⟩, "user_a", "tok_a", 0⟩
      "00000000000000000000000a" = .ok () := by
  exact ⟨by decide, by decide, by decide, rfl, rfl⟩

/-- C5 amended: identifiers that feed store queries are normalized to parsed
form first (so two spellings of the same id produce the same query key), and
the aggregation endpoints compare the presented `user_id` to the stored id in
parsed form, treating case-differing spellings alike; the `user_identifier`
authorization guards, however, compare `str(_id)` to the presented string
byte-for-byte, rejecting any spelling other than the canonical lowercase
one (unless it equals the UserName). -/
theorem objectid_comparison_sites (u : TokenDoc) (s t : String)
    (hs : ObjectId.is_valid s = true) (ht : ObjectId.is_valid t = true)
    (heq : ObjectId.ofHex s = ObjectId.ofHex t) :
    normalize_user_identifier s = normalize_user_identifier t ∧
    calculate_total_balance_identity_check u s =
      calculate_total_balance_identity_check u t ∧
    (calculate_total_balance_identity_check u s = .ok () ↔ u.id = ObjectId.ofHex s) ∧
    (u.UserName ≠ s → ObjectId.str u.id ≠ s →
      fetch_external_accounts_identity_check u s = .error 403) := by
  refine ⟨?_, ?_, ?_, fun h1 h2 => ?_⟩
  · rw [normalize_user_identifier, normalize_user_identifier, if_pos hs, if_pos ht, heq]
  · rw [calculate_total_balance_identity_check, calculate_total_balance_identity_check,
      ObjectId.parse, ObjectId.parse, if_pos hs, if_pos ht, heq]
  · rw [calculate_total_balance_identity_check, ObjectId.parse, if_pos hs]
    by_cases h : u.id = ObjectId.ofHex s <;> simp [h]
  · rw [fetch_external_accounts_identity_check, if_pos]
    simp [h1, h2]

/-- Witness for the amended C5: uppercase and lowercase spellings of id 10
normalize identically and are both accepted by the parsed-form check, while
the string-form guard rejects the uppercase spelling. -/
theorem objectid_comparison_sites_witness :
    normalize_user_identifier "00000000000000000000000A" =
      normalize_user_identifier "00000000000000000000000a" ∧
    calculate_total_balance_identity_check ⟨⟨10⟩, "user_a", "tok_a", 0⟩
      "00000000000000000000000A" =
      calculate_total_balance_identity_check ⟨⟨10⟩, "user_a", "tok_a", 0⟩
        "00000000000000000000000a" ∧
    (calculate_total_balance_identity_check ⟨⟨10⟩, "user_a", "tok_a", 0⟩
      "00000000000000000000000A" = .ok () ↔
      (⟨10⟩ : ObjectId) = ObjectId.ofHex "00000000000000000000000A") ∧
    fetch_external_accounts_identity_check ⟨⟨10⟩, "user_a", "tok_a", 0⟩
      "00000000000000000000000A" = .error 403 := by
  have h := objectid_comparison_sites ⟨⟨10⟩, "user_a", "tok_a", 0⟩
    "00000000000000000000000A" "00000000000000000000000a"
    (by decide) (by decide) (by decide)
  exact ⟨h.1, h.2.1, h.2.2.1, h.2.2.2 (by decide) (by decide)⟩

/-! Claims about account closing. -/

/-- C6: closing an existing account with a non-zero balance returns false and
leaves the collection — hence every field of the account — exactly as it was. -/
theorem close_account_nonzero_balance (coll : List AccountRecord)
    (account_id : String) (now : Nat) (oid : ObjectId) (a : AccountRecord)
    (hid : ObjectId.parse account_id = some oid)
    (hfind : coll.find? (fun x => x.id == oid) = some a)
    (hbal : a.AccountBalance ≠ 0) :
    close_account coll account_id now = some (false, coll) := by
  simp only [close_account, hid, Option.bind_eq_bind, Option.some_bind, hfind]
  rw [if_pos (by simpa [bne_iff_ne] using hbal)]
  rfl

/-- Witness for C6: the account with balance 250 is not closed and the store
is untouched. -/
theorem close_account_nonzero_balance_witness :
    close_account [⟨⟨1⟩, "A1", "Active", "Checking", 250, 1, none, "alice", ⟨5⟩⟩]
      "000000000000000000000001" 10 =
      some (false, [⟨⟨1⟩, "A1", "Active", "Checking", 250, 1, none, "alice", ⟨5⟩⟩]) :=
  close_account_nonzero_balance
    [⟨⟨1⟩, "A1", "Active", "Checking", 250, 1, none, "alice", ⟨5⟩⟩]
    "000000000000000000000001" 10 ⟨1⟩
    ⟨⟨1⟩, "A1", "Active", "Checking", 250, 1, none, "alice", ⟨5⟩⟩
    (by decide) (by decide) (by decide)

/-- C7 counterexample: closing the zero-balance account at time 10 stamps
`ClosingDate = 10`; a repeated close at time 20 succeeds again and overwrites
the stamp with 20, so the closing timestamp is not written exactly once. -/
theorem close_account_restamps_counterexample :
    close_account [⟨⟨1⟩, "A1", "Active", "Checking", 0, 1, none, "alice", ⟨5⟩⟩]
      "000000000000000000000001" 10 =
      some (true, [⟨⟨1⟩, "A1", "Closed", "Checking", 0, 1, some 10, "alice", ⟨5⟩⟩]) ∧
    close_account [⟨⟨1⟩, "A1", "Closed", "Checking", 0, 1, some 10, "alice", ⟨5⟩⟩]
      "000000000000000000000001" 20 =
      some (true, [⟨⟨1⟩, "A1", "Closed", "Checking", 0, 1, some 20, "alice", ⟨5⟩⟩]) ∧
    (some 20 : Option Nat) ≠ some 10 := by
  exact ⟨rfl, rfl, by decide⟩

/-- C7 amended: closing an existing zero-balance account applies the patch
setting `Status = Closed` and `ClosingDate = now` to the stored document and
reports whether the patch changed it; a repeated close call applies the patch
again, overwriting `ClosingDate` with the later time (and returning true
whenever the time differs) rather than stamping it exactly once. -/
theorem close_account_zero_balance (coll : List AccountRecord)
    (account_id : String) (now : Nat) (oid : ObjectId) (a : AccountRecord)
    (hid : ObjectId.parse account_id = some oid)
    (hfind : coll.find? (fun x => x.id == oid) = some a)
    (hbal : a.AccountBalance = 0) :
    close_account coll account_id now =
      some (!(a.AccountStatus == "Closed" && a.ClosingDate == some now),
        updateFirst (fun x => x.id == oid) (close_patch now) coll) ∧
    (updateFirst (fun x => x.id == oid) (close_patch now) coll).find?
        (fun x => x.id == oid) = some (close_patch now a) ∧
    (close_patch now a).AccountStatus = "Closed" ∧
    (close_patch now a).ClosingDate = some now := by
  refine ⟨?_, ?_, rfl, rfl⟩
  · simp only [close_account, hid, Option.bind_eq_bind, Option.some_bind, hfind]
    rw [if_neg (by simp [bne_iff_ne, hbal])]
    rfl
  · have h2 := find?_updateFirst (fun x : AccountRecord => x.id == oid)
      (close_patch now) coll (fun x => rfl)
    rw [h2, hfind]
    rfl

/-- Witness for the amended C7: first close stamps 10; the repeated close at
20 finds the closed account and re-applies the patch, leaving `ClosingDate = 20`. -/
theorem close_account_zero_balance_witness :
    close_account [⟨⟨1⟩, "A1", "Closed", "Checking", 0, 1, some 10, "alice", ⟨5⟩⟩]
      "000000000000000000000001" 20 =
      some (true, updateFirst (fun x => x.id == (⟨1⟩ : ObjectId))
        (close_patch 20) [⟨⟨1⟩, "A1", "Closed", "Checking", 0, 1, some 10, "alice", ⟨5⟩⟩]) ∧
    (updateFirst (fun x => x.id == (⟨1⟩ : ObjectId)) (close_patch 20)
        [⟨⟨1⟩, "A1", "Closed", "Checking", 0, 1, some 10, "alice", ⟨5⟩⟩]).find?
        (fun x => x.id == (⟨1⟩ : ObjectId)) =
      some (close_patch 20 ⟨⟨1⟩, "A1", "Closed", "Checking", 0, 1, some 10, "alice", ⟨5⟩⟩) := by
  have h := close_account_zero_balance
    [⟨⟨1⟩, "A1", "Closed", "Checking", 0, 1, some 10, "alice", ⟨5⟩⟩]
    "000000000000000000000001" 20 ⟨1⟩
    ⟨⟨1⟩, "A1", "Closed", "Checking", 0, 1, some 10, "alice", ⟨5⟩⟩
    (by decide) (by decide) (by decide)
  exact ⟨by rw [h.1]; rfl, h.2.1⟩

/-- C9: a well-formed account id matching no stored account makes
`close_account` return false (it does not raise — the result is a value, not
the `InvalidId` failure) with the store unmodified. -/
theorem close_account_no_match (coll : List AccountRecord) (account_id : String)
    (now : Nat) (oid : ObjectId)
    (hid : ObjectId.parse account_id = some oid)
    (hfind : coll.find? (fun a => a.id == oid) = none) :
    close_account coll account_id now = some (false, coll) := by
  simp only [close_account, hid, Option.bind_eq_bind, Option.some_bind, hfind]
  rfl

/-- Witness for C9: id 2 matches nothing; the call returns false and leaves
the single stored account alone. -/
theorem close_account_no_match_witness :
    close_account [⟨⟨1⟩, "A1", "Active", "Checking", 0, 1, none, "alice", ⟨5⟩⟩]
      "000000000000000000000002" 10 =
      some (false, [⟨⟨1⟩, "A1", "Active", "Checking", 0, 1, none, "alice", ⟨5⟩⟩]) :=
  close_account_no_match
    [⟨⟨1⟩, "A1", "Active", "Checking", 0, 1, none, "alice", ⟨5⟩⟩]
    "000000000000000000000002" 10 ⟨2⟩ (by decide) (by decide)

end LeafyBank
